import Mathlib

/-!
Verification of the Heroku AppLink PDF Quote Generator Service
(`src/app/main.py`) against its natural-language specification.

The development shallowly embeds the service:
* Salesforce field values become the inductive type `Value` (strings,
  numbers as exact rationals, nested objects, null); Python dictionaries
  become association lists (`FieldMap`).
* The document composer `create_pdf_from_opportunity_data` is embedded as
  the HTML document string handed to the external WeasyPrint renderer
  (the renderer itself is an external collaborator, text in, bytes out).
  The wall-clock date that the Python code reads via `datetime.now()` is
  passed in as an explicit argument.
* The request handler `generate_quote_pdf` is embedded as a deterministic
  function of an environment `Env` holding the results of every remote
  call (queries, record creations, the renderer, base64); it returns the
  HTTP outcome together with the ordered trace of remote calls issued.
* Python `format(x, ",.2f")` is embedded as `formatComma2`:
  round-half-even at two decimal places on the exact rational value
  (CPython rounds the nearest binary double; on decimal inputs of at most
  two fractional digits, as in all claims, the two agree), thousands
  groups separated by commas.
-/

set_option maxRecDepth 40000

namespace QuotePdf

/-! ## Field values and Python-dict semantics -/

/-- Salesforce/JSON field value: null, string, number (exact rational in
place of the Python float), or nested object. -/
inductive Value where
  | null : Value
  | str (s : String) : Value
  | num (q : ℚ) : Value
  | obj (fields : List (String × Value)) : Value

/-- A Python dict of field name to value, as an association list
(first binding wins, mirroring unique dict keys). -/
abbrev FieldMap := List (String × Value)

/-- Association-list lookup; embeds Python dict key presence testing. -/
def lookupField : FieldMap → String → Option Value
  | [], _ => none
  | (k', v) :: rest, k => if k' = k then some v else lookupField rest k

/-- Python `d.get(k, default)`: the stored value when the key is present
(even when it is `None`), else the default. -/
def pyGet (m : FieldMap) (k : String) (d : Value) : Value :=
  (lookupField m k).getD d

/-- Python truthiness of a field value (`bool(v)`). -/
def truthy : Value → Bool
  | .null => false
  | .str s => !(s == "")
  | .num q => !(q == 0)
  | .obj m => !m.isEmpty

/-- Embeds the Python idiom `v or 0`. -/
def orZero (v : Value) : Value := if truthy v then v else .num 0

/-- Numeric content of a value; non-numeric values map to 0.  Python would
raise a `TypeError` when a truthy non-numeric value reaches arithmetic or a
float format spec; no handler path and no claim exercises that corner, and
the theorems below restrict line items to numeric-or-null-or-absent price
fields where the embedding and Python agree. -/
def numOf : Value → ℚ
  | .num q => q
  | _ => 0

/-- Embeds `fields.get(k, 0) or 0` followed by use as a number. -/
def getNum (m : FieldMap) (k : String) : ℚ :=
  numOf (orZero (pyGet m k (.num 0)))

/-! ## Decimal rendering: digits, thousands grouping, `",.2f"` -/

/-- Decimal digit character (codepoint 48 is the zero digit). -/
def digitChar (d : Nat) : Char := Char.ofNat (48 + d)

/-- Most-significant-first decimal digits, fuel-indexed.  Defined through
`Nat.rec` so that concrete evaluations reduce in the kernel. -/
def natDigitsAux : Nat → Nat → List Char :=
  Nat.rec (motive := fun _ => Nat → List Char)
    (fun _ => [])
    (fun _ ih n => if n < 10 then [digitChar n] else ih (n / 10) ++ [digitChar (n % 10)])

/-- Decimal digit list of a natural number, most significant first. -/
def natDigits (n : Nat) : List Char := natDigitsAux (n + 1) n

/-- Comma character used by the thousands separator. -/
def commaChar : Char := Char.ofNat 44

/-- Insert a comma after every three characters of a least-significant-first
digit list: the digit-grouping step of Python's comma format option. -/
def group3 : List Char → List Char
  | d1 :: d2 :: d3 :: d4 :: rest => d1 :: d2 :: d3 :: commaChar :: group3 (d4 :: rest)
  | l => l

/-- Decimal rendering of a natural number with thousands separators,
as produced by Python `format(n, ",")`. -/
def groupDigits (n : Nat) : String :=
  String.mk ((group3 (natDigits n).reverse).reverse)

/-- Left-pad a digit list with zeros to the given width. -/
def padLeft0 (w : Nat) (ds : List Char) : List Char :=
  List.replicate (w - ds.length) (digitChar 0) ++ ds

/-- Two-digit zero-padded rendering, for the cents part of `",.2f"`. -/
def pad2 (n : Nat) : String := String.mk (padLeft0 2 (natDigits n))

/-- Embeds Python `format(x, ",.2f")`: the value rounded half-to-even at two
decimal places, integer part grouped in thousands with commas, exactly two
digits after the decimal point, a leading minus sign for negative values.
Computed from the rational's numerator and denominator with natural-number
arithmetic so that it reduces in the kernel. -/
def formatComma2 (q : ℚ) : String :=
  let m : Nat := q.num.natAbs * 100
  let f : Nat := m / q.den
  let r : Nat := m % q.den
  let cents : Nat :=
    if 2 * r < q.den then f
    else if q.den < 2 * r then f + 1
    else if f % 2 = 0 then f else f + 1
  (if q.num < 0 then "-" else "") ++ groupDigits (cents / 100) ++ "." ++ pad2 (cents % 100)

/-- Decimal rendering of an integer. -/
def intStr (i : ℤ) : String :=
  (if i < 0 then "-" else "") ++ String.mk (natDigits i.natAbs)

/-- Python `str()` of a field value as interpolated into the f-strings.
Strings interpolate verbatim and `None` as `"None"`, exactly as in Python.
Numbers and nested dicts are approximated (Python would print float and
dict reprs); no claim constrains those renderings. -/
def pyStr : Value → String
  | .null => "None"
  | .str s => s
  | .num q => if q.den = 1 then intStr q.num else intStr q.num ++ "/" ++ String.mk (natDigits q.den)
  | .obj _ => "[object]"

/-- Comma-separated concatenation of character groups, used to state the
thousands-grouping property of `formatComma2`. -/
def joinGroups : List (List Char) → List Char
  | [] => []
  | [g] => g
  | g :: g2 :: gs => g ++ commaChar :: joinGroups (g2 :: gs)

/-! ## Substring containment

`Contains s sub` states that `sub` occurs contiguously in `s`.  The
decision procedure iterates with `List.rec` in tail position so that the
kernel can evaluate it on documents several kilobytes long. -/

/-- Boolean substring search over character lists: does `pat` occur as a
contiguous run in the text? -/
def containsAux (pat : List Char) : List Char → Bool :=
  List.rec (motive := fun _ => Bool)
    (pat.isPrefixOf [])
    (fun c t ih => if pat.isPrefixOf (c :: t) then true else ih)

/-- Boolean substring test on strings. -/
def strContains (s sub : String) : Bool := containsAux sub.data s.data

/-- The string `sub` occurs contiguously inside `s`. -/
def Contains (s sub : String) : Prop := strContains s sub = true

instance (s sub : String) : Decidable (Contains s sub) :=
  inferInstanceAs (Decidable (_ = true))

/-! ## Templates (`get_template_styles`, `main.py` lines 104-169) -/

/-- The shared CSS of every template (`base_styles`, lines 131-148). -/
def base_styles : String :=
  "\n        * \x7b margin: 0; padding: 0; box-sizing: border-box; \x7d\n        body \x7b font-family: \x27Segoe UI\x27, Tahoma, Geneva, Verdana, sans-serif; padding: 40px; color: #333; \x7d\n        .header \x7b margin-bottom: 30px; \x7d\n        .header h1 \x7b margin-bottom: 10px; \x7d\n        .meta-info \x7b margin-bottom: 20px; \x7d\n        .meta-info p \x7b margin: 5px 0; \x7d\n        table \x7b width: 100%; border-collapse: collapse; margin: 20px 0; \x7d\n        th, td \x7b border: 1px solid #ddd; padding: 12px; text-align: left; \x7d\n        th \x7b background-color: #f8f9fa; font-weight: 600; \x7d\n        tbody tr:nth-child(even) \x7b background-color: #f9f9f9; \x7d\n        .total-row \x7b font-weight: bold; background-color: #e9ecef !important; \x7d\n        .footer \x7b margin-top: 40px; padding-top: 20px; border-top: 1px solid #ddd; \x7d\n        .terms \x7b margin-top: 30px; padding: 20px; background-color: #f8f9fa; border-radius: 5px; \x7d\n        .terms h3 \x7b margin-bottom: 15px; \x7d\n        .terms ol \x7b margin-left: 20px; \x7d\n        .terms li \x7b margin: 5px 0; \x7d\n    "

/-- The `"standard"` entry of the `template_specific` dict (lines 151-154). -/
def standard_css : String :=
  "\n            .header h1 \x7b color: #1798c1; \x7d\n            th \x7b background-color: #1798c1; color: white; \x7d\n        "

/-- The `"professional"` entry of the `template_specific` dict (lines 155-160). -/
def professional_css : String :=
  "\n            .header \x7b border-bottom: 3px solid #2c3e50; padding-bottom: 20px; \x7d\n            .header h1 \x7b color: #2c3e50; \x7d\n            th \x7b background-color: #2c3e50; color: white; \x7d\n            .footer \x7b text-align: center; color: #666; \x7d\n        "

/-- The `"minimal"` entry of the `template_specific` dict (lines 161-166). -/
def minimal_css : String :=
  "\n            .header h1 \x7b color: #333; font-weight: 300; \x7d\n            table \x7b border: none; \x7d\n            th, td \x7b border: none; border-bottom: 1px solid #eee; \x7d\n            th \x7b background-color: transparent; color: #666; text-transform: uppercase; font-size: 12px; \x7d\n        "

/-- The `template_specific` dict of `get_template_styles` (lines 150-167). -/
def template_specific : List (String × String) :=
  [("standard", standard_css), ("professional", professional_css), ("minimal", minimal_css)]

/-- Embeds `get_template_styles` (lines 128-169): base styles plus
`template_specific.get(template_name, template_specific["standard"])`;
the `"standard"` key is present, so the dict access is `standard_css`. -/
def get_template_styles (template_name : String) : String :=
  base_styles ++ (template_specific.lookup template_name).getD standard_css

/-! ## Terms block and composer (`main.py` lines 110-121 and 172-295) -/

/-- The fixed five-clause terms block `TERMS_AND_CONDITIONS` (lines 110-121). -/
def TERMS_AND_CONDITIONS : String :=
  "\n<div class=\"terms\">\n    <h3>Terms and Conditions</h3>\n    <ol>\n        <li>This quote is valid for 30 days from the date of issue.</li>\n        <li>Payment terms: Net 30 days from invoice date.</li>\n        <li>Prices are subject to change without prior notice.</li>\n        <li>Delivery dates are estimated and subject to confirmation.</li>\n        <li>All sales are final unless otherwise specified in writing.</li>\n    </ol>\n</div>\n"

/-- Embeds `line.get('fields', line) if isinstance(line, dict) else \x7b\x7d`
(line 207).  The composer always receives dicts (`record.fields`) from the
handler, so the non-dict branch is unreachable there and the dict case is
modelled.  When a `"fields"` key holds a non-dict value, Python would fail
on the following `.get` (an `AttributeError` surfacing via the handler's
exception boundary); the embedding returns the line itself and every
theorem about line items excludes that shape. -/
def line_fields (line : FieldMap) : FieldMap :=
  match lookupField line "fields" with
  | some (.obj m) => m
  | _ => line

/-- One row of the line-items table (lines 207-221). -/
def line_item_row (line : FieldMap) : String :=
  let fields := line_fields line
  let name := pyGet fields "Name" (.str "N/A")
  let quantity := orZero (pyGet fields "Quantity" (.num 0))
  let unit_price := getNum fields "UnitPrice"
  let total_price := getNum fields "TotalPrice"
  "\n            <tr>\n                <td>" ++ pyStr name
  ++ "</td>\n                <td style=\"text-align: center;\">" ++ pyStr quantity
  ++ "</td>\n                <td style=\"text-align: right;\">$" ++ formatComma2 unit_price
  ++ "</td>\n                <td style=\"text-align: right;\">$" ++ formatComma2 total_price
  ++ "</td>\n            </tr>\n        "

/-- The running sum `total_amount` accumulated by the loop of lines 206-212:
each line's own `TotalPrice` (absent or falsy values counted as 0). -/
def computeTotal (quote_lines : List FieldMap) : ℚ :=
  quote_lines.foldl (fun acc line => acc + getNum (line_fields line) "TotalPrice") 0

/-- The concatenated item rows accumulated into `line_items_html` by the
loop of lines 206-221. -/
def line_items_rows (quote_lines : List FieldMap) : String :=
  String.join (quote_lines.map line_item_row)

/-- The total row appended at lines 224-229, rendering `total_amount`. -/
def total_row_html (total : ℚ) : String :=
  "\n        <tr class=\"total-row\">\n            <td colspan=\"3\" style=\"text-align: right;\"><strong>Total:</strong></td>\n            <td style=\"text-align: right;\">"
  ++ "<strong>$" ++ formatComma2 total ++ "</strong>"
  ++ "</td>\n        </tr>\n    "

/-- The full `line_items_html` value after the loop and line 224: item rows
followed by the total row. -/
def line_items_html (quote_lines : List FieldMap) : String :=
  line_items_rows quote_lines ++ total_row_html (computeTotal quote_lines)

/-- The placeholder row of line 279, inserted instead of `line_items_html`
when the line-item list is empty. -/
def no_items_row : String :=
  "<tr><td colspan=\"4\" style=\"text-align: center; color: #666;\">No line items found</td></tr>"

/-- Embeds line 235: a custom-header paragraph only for a truthy (provided
and non-empty) value. -/
def header_section : Option String → String
  | some s => if s == "" then "" else "<p class=\x27custom-header\x27>" ++ s ++ "</p>"
  | none => ""

/-- Embeds line 236: a custom-footer paragraph only for a truthy value. -/
def footer_section : Option String → String
  | some s => if s == "" then "" else "<p class=\x27custom-footer\x27>" ++ s ++ "</p>"
  | none => ""

/-- Embeds line 237: the fixed terms block or nothing. -/
def terms_section (include_terms : Bool) : String :=
  if include_terms then TERMS_AND_CONDITIONS else ""

/-- Embeds line 197: the account name comes from the nested `Account` value
when that value is a dict, else from the flattened `"Account.Name"` key,
with `"N/A"` as the default of either `.get`. -/
def account_name (opportunity_data : FieldMap) : Value :=
  match lookupField opportunity_data "Account" with
  | some (.obj m) => pyGet m "Name" (.str "N/A")
  | _ => pyGet opportunity_data "Account.Name" (.str "N/A")

/-- The part of the `html_content` f-string (lines 239-283) before the
terms-section interpolation point. -/
def docBeforeTerms (opportunity_data : FieldMap) (quote_lines : List FieldMap)
    (template_name : String) (custom_header : Option String) (current_date : String) : String :=
  let opp_name := pyStr (pyGet opportunity_data "Name" (.str "N/A"))
  let opp_id := pyStr (pyGet opportunity_data "Id" (.str "N/A"))
  let account := pyStr (account_name opportunity_data)
  let amount := getNum opportunity_data "Amount"
  let close_date := pyStr (pyGet opportunity_data "CloseDate" (.str "N/A"))
  let stage := pyStr (pyGet opportunity_data "StageName" (.str "N/A"))
  let styles := get_template_styles template_name
  "\n    <!DOCTYPE html>\n    <html>\n    <head>\n        <meta charset=\"UTF-8\">\n        <title>Quote for " ++ opp_name
  ++ "</title>\n        <style>\n            " ++ styles
  ++ "\n            @page \x7b\n                size: A4;\n                margin: 2cm;\n            \x7d\n        </style>\n    </head>\n    <body>\n        <div class=\"header\">\n            " ++ header_section custom_header
  ++ "\n            <h1>Quote for " ++ opp_name
  ++ "</h1>\n            <p><strong>Quote Date:</strong> " ++ current_date
  ++ "</p>\n        </div>\n        \n        <div class=\"meta-info\">\n            <p><strong>Opportunity ID:</strong> " ++ opp_id
  ++ "</p>\n            <p>" ++ "<strong>Account:</strong> " ++ account
  ++ "</p>\n            <p><strong>Stage:</strong> " ++ stage
  ++ "</p>\n            <p><strong>Expected Close Date:</strong> " ++ close_date
  ++ "</p>\n            <p><strong>Opportunity Amount:</strong> $" ++ formatComma2 amount
  ++ "</p>\n        </div>\n        \n        <h2>Quote Line Items</h2>\n        <table>\n            <thead>\n                <tr>\n                    <th>Item Name</th>\n                    <th style=\"text-align: center;\">Quantity</th>\n                    <th style=\"text-align: right;\">Unit Price</th>\n                    <th style=\"text-align: right;\">Total</th>\n                </tr>\n            </thead>\n            <tbody>\n                "
  ++ (if quote_lines.isEmpty then no_items_row else line_items_html quote_lines)
  ++ "\n            </tbody>\n        </table>\n        \n        "

/-- The part of the `html_content` f-string after the terms-section
interpolation point (lines 283-291). -/
def docAfterTerms (custom_footer : Option String) (current_date : String) : String :=
  "\n        \n        <div class=\"footer\">\n            " ++ footer_section custom_footer
  ++ "\n            <p>Generated on " ++ current_date
  ++ "</p>\n        </div>\n    </body>\n    </html>\n    "

/-- Embeds `create_pdf_from_opportunity_data` (lines 172-295) up to the
external renderer call: the complete `html_content` document handed to
WeasyPrint.  The `datetime.now()` read of line 233 is passed in as the
explicit `current_date` argument. -/
def create_pdf_from_opportunity_data (opportunity_data : FieldMap) (quote_lines : List FieldMap)
    (include_terms : Bool) (template_name : String)
    (custom_header custom_footer : Option String) (current_date : String) : String :=
  docBeforeTerms opportunity_data quote_lines template_name custom_header current_date
  ++ terms_section include_terms
  ++ docAfterTerms custom_footer current_date

/-! ## The generate-quote-pdf handler (`main.py` lines 323-465)

The handler's external collaborators (the Heroku AppLink data API, the
WeasyPrint renderer, `base64.b64encode`, the two `datetime.now()` reads)
are collected in an environment `Env`; each fallible call returns
`Except Exn` where `Exn` carries a Python exception's type name and
message.  The handler returns its HTTP outcome together with the ordered
trace of remote calls it issued. -/

/-- A Python exception crossing the handler's except boundary. -/
structure Exn where
  typeName : String
  msg : String

/-- One record returned by the data API (`record.fields`). -/
structure QueryRecord where
  fields : FieldMap

/-- The handler's external collaborators and clock reads for one request. -/
structure Env where
  /-- Result of `data_api.query(soql)` for each query string. -/
  queryRes : String → Except Exn (List QueryRecord)
  /-- Result of `data_api.create(sobjectType, fields)`: the new record id. -/
  createRes : String → FieldMap → Except Exn String
  /-- Result of `HTML(string=html).write_pdf()`: the PDF bytes. -/
  renderRes : String → Except Exn (List Nat)
  /-- Result of `base64.b64encode(bytes).decode('utf-8')`. -/
  b64encode : List Nat → String
  /-- `client_context.user.id`. -/
  userId : String
  /-- `getattr(client_context, 'instance_url', '')`. -/
  instanceUrl : String
  /-- `datetime.now().strftime("%Y%m%d_%H%M%S")` at line 413. -/
  nowTimestamp : String
  /-- `datetime.now().strftime("%B %d, %Y")` read inside the composer. -/
  nowDate : String

/-- The parsed request body (the `GenerateQuotePdfRequest` pydantic model,
lines 21-46, after JSON parsing and before constraint validation). -/
structure GenerateQuotePdfRequest where
  opportunityId : String
  includeTerms : Bool
  templateName : String
  customHeader : Option String
  customFooter : Option String

/-- The `ErrorResponse` model (lines 58-63); `details` holds string pairs
(the only shape the handler produces). -/
structure ErrorResponse where
  status : String
  message : String
  errorCode : String
  details : Option (List (String × String))

/-- The success model `GenerateQuotePdfResponse` (lines 49-55). -/
structure GenerateQuotePdfResponse where
  status : String
  message : String
  contentDocumentId : Option String
  contentVersionId : Option String
  pdfUrl : Option String

/-- The HTTP outcome of one request. -/
inductive Outcome where
  | ok (resp : GenerateQuotePdfResponse)
  | httpError (statusCode : Nat) (body : ErrorResponse)

/-- One remote call issued by the handler. -/
inductive RemoteCall where
  | query (soql : String)
  | create (sobjectType : String) (fields : FieldMap)

/-- The Opportunity fetch-one query string (lines 357-369). -/
def opp_query (opportunity_id : String) : String :=
  "\n            SELECT \n                Id, \n                Name, \n                Amount, \n                StageName,\n                CloseDate,\n                Account.Id,\n                Account.Name\n            FROM Opportunity \n            WHERE Id = \x27"
  ++ opportunity_id ++ "\x27 \n            LIMIT 1\n        "

/-- The Quote Line Item fetch-many query string (lines 386-396). -/
def quote_lines_query (opportunity_id : String) : String :=
  "\n            SELECT \n                Id, \n                Name, \n                Quantity, \n                UnitPrice, \n                TotalPrice,\n                Quote.Name\n            FROM QuoteLineItem \n            WHERE Quote.OpportunityId = \x27"
  ++ opportunity_id ++ "\x27\n        "

/-- The ContentDocumentId read-back query string (line 428). -/
def cd_query (content_version_id : String) : String :=
  "SELECT ContentDocumentId FROM ContentVersion WHERE Id = \x27" ++ content_version_id ++ "\x27"

/-- The 404 body raised at lines 374-381. -/
def notFoundBody : ErrorResponse :=
  ⟨"error", "Opportunity not found", "NOT_FOUND", none⟩

/-- The 500 body built by the handler's exception boundary (lines 455-465):
message from `str(e)`, the exception's type name under `details`. -/
def internalErrorBody (e : Exn) : ErrorResponse :=
  ⟨"error", "Internal Server Error: " ++ e.msg, "INTERNAL_ERROR", some [("exception", e.typeName)]⟩

/-- The client-visible filename of line 417, embedding the Opportunity ID
and the request timestamp. -/
def pathOnClient (opportunity_id timestamp : String) : String :=
  "Quote_" ++ opportunity_id ++ "_" ++ timestamp ++ ".pdf"

/-- The `file_data` dict of lines 415-421. -/
def file_data (opportunity_id : String) (opp_record : FieldMap) (env : Env)
    (pdf_bytes : List Nat) : FieldMap :=
  let opp_name := pyStr (pyGet opp_record "Name" (.str "Quote"))
  [("Title", .str ("Quote - " ++ opp_name)),
   ("PathOnClient", .str (pathOnClient opportunity_id env.nowTimestamp)),
   ("VersionData", .str (env.b64encode pdf_bytes)),
   ("OwnerId", .str env.userId),
   ("Description", .str ("Auto-generated quote PDF for Opportunity: " ++ opp_name))]

/-- The `cdl_data` dict of lines 433-438. -/
def cdl_data (opportunity_id : String) (content_document_id : Value) : FieldMap :=
  [("ContentDocumentId", content_document_id),
   ("LinkedEntityId", .str opportunity_id),
   ("ShareType", .str "V"),
   ("Visibility", .str "AllUsers")]

/-- Embeds the `generate_quote_pdf` handler body (lines 333-465).  The
try/except boundary of lines 453-465 is inlined at each fallible call: an
`Except.error` (a raised exception that is not an `HTTPException`) becomes
HTTP 500 with `internalErrorBody`, while the deliberately raised 404
`HTTPException` passes through unmodified.  The
`cd_result.records[0].fields['ContentDocumentId']` access of line 430 can
itself raise `IndexError`/`KeyError` in Python; both are embedded as the
corresponding 500 conversions.  The second component is the ordered trace
of remote calls issued. -/
def generate_quote_pdf (env : Env) (request : GenerateQuotePdfRequest) :
    Outcome × List RemoteCall :=
  let opportunity_id := request.opportunityId
  let q1 := opp_query opportunity_id
  match env.queryRes q1 with
  | .error e => (.httpError 500 (internalErrorBody e), [.query q1])
  | .ok [] => (.httpError 404 notFoundBody, [.query q1])
  | .ok (r :: _) =>
    let opp_record := r.fields
    let q2 := quote_lines_query opportunity_id
    match env.queryRes q2 with
    | .error e => (.httpError 500 (internalErrorBody e), [.query q1, .query q2])
    | .ok lineRecs =>
      let quote_lines := lineRecs.map QueryRecord.fields
      let html := create_pdf_from_opportunity_data opp_record quote_lines
        request.includeTerms request.templateName request.customHeader request.customFooter
        env.nowDate
      match env.renderRes html with
      | .error e => (.httpError 500 (internalErrorBody e), [.query q1, .query q2])
      | .ok pdf_bytes =>
        let fd := file_data opportunity_id opp_record env pdf_bytes
        match env.createRes "ContentVersion" fd with
        | .error e =>
          (.httpError 500 (internalErrorBody e),
           [.query q1, .query q2, .create "ContentVersion" fd])
        | .ok content_version_id =>
          let q3 := cd_query content_version_id
          match env.queryRes q3 with
          | .error e =>
            (.httpError 500 (internalErrorBody e),
             [.query q1, .query q2, .create "ContentVersion" fd, .query q3])
          | .ok [] =>
            (.httpError 500 (internalErrorBody ⟨"IndexError", "list index out of range"⟩),
             [.query q1, .query q2, .create "ContentVersion" fd, .query q3])
          | .ok (r3 :: _) =>
            match lookupField r3.fields "ContentDocumentId" with
            | none =>
              (.httpError 500 (internalErrorBody ⟨"KeyError", "\x27ContentDocumentId\x27"⟩),
               [.query q1, .query q2, .create "ContentVersion" fd, .query q3])
            | some content_document_id =>
              let cdl := cdl_data opportunity_id content_document_id
              match env.createRes "ContentDocumentLink" cdl with
              | .error e =>
                (.httpError 500 (internalErrorBody e),
                 [.query q1, .query q2, .create "ContentVersion" fd, .query q3,
                  .create "ContentDocumentLink" cdl])
              | .ok _ =>
                let pdf_url :=
                  if env.instanceUrl == "" then none
                  else some (env.instanceUrl ++ "/" ++ pyStr content_document_id)
                (.ok ⟨"success", "PDF generated and attached to Opportunity.",
                      some (pyStr content_document_id), some content_version_id, pdf_url⟩,
                 [.query q1, .query q2, .create "ContentVersion" fd, .query q3,
                  .create "ContentDocumentLink" cdl])

/-! ## Request validation (pydantic constraints of lines 21-46) -/

/-- ASCII letter or digit, the character class of the `opportunityId`
pattern (line 26). -/
def isAsciiAlphanum (c : Char) : Bool :=
  (Char.ofNat 48 ≤ c && c ≤ Char.ofNat 57)
  || (Char.ofNat 97 ≤ c && c ≤ Char.ofNat 122)
  || (Char.ofNat 65 ≤ c && c ≤ Char.ofNat 90)

/-- The `opportunityId` regex of line 26: 18 characters, the fixed
three-character `006` lead, then 15 ASCII alphanumerics. -/
def matchesOppIdPattern (s : String) : Bool :=
  s.data.length == 18
  && s.data.take 3 == [Char.ofNat 48, Char.ofNat 48, Char.ofNat 54]
  && (s.data.drop 3).all isAsciiAlphanum

/-- The `GenerateQuotePdfRequest` field constraints (lines 21-46):
`opportunityId` matches the pattern, `customHeader` at most 200 characters,
`customFooter` at most 500; absent optional fields pass. -/
def validateRequest (r : GenerateQuotePdfRequest) : Bool :=
  matchesOppIdPattern r.opportunityId
  && (match r.customHeader with
      | some h => decide (h.data.length ≤ 200)
      | none => true)
  && (match r.customFooter with
      | some f => decide (f.data.length ≤ 500)
      | none => true)

/-- Modelled from the spec: the error body for a request-validation
failure.  The repository declares the constraints (lines 21-46) and a 400
`ErrorResponse` for the route (line 327), but the rejection itself is
performed by the web framework's validation layer, which is not part of
`src/`; the spec's taxonomy names the code VALIDATION_ERROR. -/
def validationErrorBody : ErrorResponse :=
  ⟨"error", "Validation error", "VALIDATION_ERROR", none⟩

/-- Modelled from the spec: the service entry point for one request.  The
framework validates the parsed body against the declared constraints
before the handler body runs; a violation yields HTTP 400 with no remote
call issued (spec sections 6 and 7), otherwise the handler runs. -/
def handle_request (env : Env) (request : GenerateQuotePdfRequest) :
    Outcome × List RemoteCall :=
  if validateRequest request then generate_quote_pdf env request
  else (.httpError 400 validationErrorBody, [])

/-- Whether an outcome is the success response. -/
def isSuccess : Outcome → Bool
  | .ok _ => true
  | .httpError _ _ => false

/-- Whether a remote call is a write (a create). -/
def isCreate : RemoteCall → Bool
  | .create _ _ => true
  | .query _ => false

/-- The `PathOnClient` value of the first ContentVersion create call in a
trace: the client-visible filename submitted to the store. -/
def clientFilename : List RemoteCall → Option Value
  | [] => none
  | .create "ContentVersion" fs :: _ => lookupField fs "PathOnClient"
  | _ :: rest => clientFilename rest

/-! ## Concrete sample data used by witnesses and counterexamples -/

/-- A fixed composer date, standing for one `datetime.now()` reading. -/
def sampleDate : String := "January 01, 2026"

/-- A representative Opportunity record as returned by the fetch-one query
(`Amount` is 1231.50, a value whose rendering contains no `0.00`). -/
def sampleOpp : FieldMap :=
  [("Id", .str "006A1B2C3D4E5F6G7H"),
   ("Name", .str "Acme Renewal"),
   ("Amount", .num (Rat.mk' 2463 2)),
   ("StageName", .str "Prospecting"),
   ("CloseDate", .str "2026-01-31"),
   ("Account", .obj [("Name", .str "Acme Corp")])]

/-- A line item whose `TotalPrice` is 100.00. -/
def c2_line1 : FieldMap :=
  [("Name", .str "Widget"), ("Quantity", .num (Rat.mk' 2 1)),
   ("UnitPrice", .num (Rat.mk' 50 1)), ("TotalPrice", .num (Rat.mk' 100 1))]

/-- A line item whose `TotalPrice` is 250.50. -/
def c2_line2 : FieldMap :=
  [("Name", .str "Gadget"), ("Quantity", .num (Rat.mk' 1 1)),
   ("UnitPrice", .num (Rat.mk' 501 2)), ("TotalPrice", .num (Rat.mk' 501 2))]

/-- A well-formed request for Opportunity `006A1B2C3D4E5F6G7H`. -/
def sampleReq : GenerateQuotePdfRequest :=
  ⟨"006A1B2C3D4E5F6G7H", false, "standard", none, none⟩

/-- A request whose Opportunity ID does not match the record-ID pattern. -/
def badReq : GenerateQuotePdfRequest :=
  ⟨"bad-format", false, "standard", none, none⟩

/-- An environment whose every query returns no records. -/
def emptyEnv : Env :=
  ⟨fun _ => .ok [], fun _ _ => .ok "", fun _ => .ok [], fun _ => "",
   "005USER", "", "20260101_120000", "January 01, 2026"⟩

/-- An environment where the queries and the renderer succeed but every
record creation raises. -/
def createFailEnv : Env :=
  ⟨fun q => if q = quote_lines_query "006A1B2C3D4E5F6G7H" then .ok [] else .ok [⟨sampleOpp⟩],
   fun _ _ => .error ⟨"UnexpectedRestApiResponsePayload", "create failed"⟩,
   fun _ => .ok [37, 80], fun _ => "JVBERg==",
   "005USER", "", "20260101_120000", "January 01, 2026"⟩

/-- An environment where both data queries succeed and the renderer
raises. -/
def renderFailEnv : Env :=
  ⟨fun q => if q = quote_lines_query "006A1B2C3D4E5F6G7H" then .ok [] else .ok [⟨sampleOpp⟩],
   fun _ _ => .ok "068CV", fun _ => .error ⟨"OSError", "renderer crashed"⟩, fun _ => "",
   "005USER", "", "20260101_120000", "January 01, 2026"⟩

/-- A fully successful environment (first generation): every remote call
succeeds, the request clock reads `20260101_120000`. -/
def okEnvA : Env :=
  ⟨fun q => if q = cd_query "068CVA" then .ok [⟨[("ContentDocumentId", .str "069DOCA")]⟩]
            else if q = quote_lines_query "006A1B2C3D4E5F6G7H" then .ok []
            else .ok [⟨sampleOpp⟩],
   fun t _ => if t = "ContentVersion" then .ok "068CVA" else .ok "06ACDLA",
   fun _ => .ok [37, 80], fun _ => "JVBERg==", "005USER", "https://example.my.salesforce.com",
   "20260101_120000", "January 01, 2026"⟩

/-- A second fully successful environment (second sequential generation):
distinct record identifiers, but the same second on the request clock. -/
def okEnvB : Env :=
  ⟨fun q => if q = cd_query "068CVB" then .ok [⟨[("ContentDocumentId", .str "069DOCB")]⟩]
            else if q = quote_lines_query "006A1B2C3D4E5F6G7H" then .ok []
            else .ok [⟨sampleOpp⟩],
   fun t _ => if t = "ContentVersion" then .ok "068CVB" else .ok "06BCDLB",
   fun _ => .ok [37, 80], fun _ => "JVBERg==", "005USER", "https://example.my.salesforce.com",
   "20260101_120000", "January 01, 2026"⟩

/-- An Opportunity carrying a structured nested Account value. -/
def nestedAccOpp : FieldMap := [("Account", .obj [("Name", .str "Globex")])]

/-- An Opportunity carrying only the flattened account-name key. -/
def flatAccOpp : FieldMap := [("Account.Name", .str "Initech")]

/-! ## Digit-rendering lemmas -/

theorem natDigitsAux_zero (n : Nat) : natDigitsAux 0 n = [] := rfl

theorem natDigitsAux_succ (f n : Nat) :
    natDigitsAux (f + 1) n =
      if n < 10 then [digitChar n] else natDigitsAux f (n / 10) ++ [digitChar (n % 10)] := rfl

theorem natDigitsAux_small (f n : Nat) (hf : 0 < f) (h : n < 10) :
    natDigitsAux f n = [digitChar n] := by
  cases f with
  | zero => omega
  | succ f => rw [natDigitsAux_succ, if_pos h]

theorem natDigitsAux_big (f n : Nat) (hf : 0 < f) (h : ¬ n < 10) :
    natDigitsAux f n = natDigitsAux (f - 1) (n / 10) ++ [digitChar (n % 10)] := by
  cases f with
  | zero => omega
  | succ f => rw [natDigitsAux_succ, if_neg h]; rfl

theorem natDigitsAux_fuel (n : Nat) : ∀ f g : Nat, n < f → n < g →
    natDigitsAux f n = natDigitsAux g n := by
  induction n using Nat.strong_induction_on with
  | _ n ih =>
    intro f g hf hg
    by_cases h : n < 10
    · rw [natDigitsAux_small f n (by omega) h, natDigitsAux_small g n (by omega) h]
    · rw [natDigitsAux_big f n (by omega) h, natDigitsAux_big g n (by omega) h]
      have hd : n / 10 < n := Nat.div_lt_self (by omega) (by omega)
      rw [ih (n / 10) hd (f - 1) (g - 1) (by omega) (by omega)]

theorem natDigits_small (n : Nat) (h : n < 10) : natDigits n = [digitChar n] :=
  natDigitsAux_small _ _ (by omega) h

theorem natDigits_big (n : Nat) (h : ¬ n < 10) :
    natDigits n = natDigits (n / 10) ++ [digitChar (n % 10)] := by
  have hd : n / 10 < n := Nat.div_lt_self (by omega) (by omega)
  rw [natDigits, natDigitsAux_big (n + 1) n (by omega) h]
  have he : n + 1 - 1 = n := rfl
  rw [he, natDigitsAux_fuel (n / 10) n (n / 10 + 1) (by omega) (by omega)]
  rfl

theorem natDigits_ne_nil (n : Nat) : natDigits n ≠ [] := by
  by_cases h : n < 10
  · rw [natDigits_small n h]; simp
  · rw [natDigits_big n h]; simp

theorem digitChar_isDigit (d : Nat) (h : d < 10) : (digitChar d).isDigit = true := by
  interval_cases d <;> decide

theorem natDigits_all_digit (n : Nat) : ∀ c ∈ natDigits n, c.isDigit = true := by
  induction n using Nat.strong_induction_on with
  | _ n ih =>
    by_cases h : n < 10
    · rw [natDigits_small n h]
      intro c hc
      simp only [List.mem_singleton] at hc
      subst hc
      exact digitChar_isDigit n h
    · rw [natDigits_big n h]
      intro c hc
      rcases List.mem_append.mp hc with h1 | h2
      · exact ih (n / 10) (Nat.div_lt_self (by omega) (by omega)) c h1
      · simp only [List.mem_singleton] at h2
        subst h2
        exact digitChar_isDigit _ (Nat.mod_lt _ (by omega))

theorem natDigits_len_le_two (n : Nat) (h : n < 100) : (natDigits n).length ≤ 2 := by
  by_cases h1 : n < 10
  · rw [natDigits_small n h1]; simp
  · rw [natDigits_big n h1, List.length_append]
    have h2 : n / 10 < 10 := by omega
    rw [natDigits_small _ h2]
    simp

/-! ## Thousands-grouping lemmas -/

theorem joinGroups_pair (g : List Char) (g2 : List Char) (gs : List (List Char)) :
    joinGroups (g :: g2 :: gs) = g ++ commaChar :: joinGroups (g2 :: gs) := rfl

theorem joinGroups_append (gss : List (List Char)) (g : List Char) (h : gss ≠ []) :
    joinGroups (gss ++ [g]) = joinGroups gss ++ commaChar :: g := by
  induction gss with
  | nil => cases h rfl
  | cons a gs ih =>
    cases gs with
    | nil => rfl
    | cons b gs2 =>
      have hne : b :: gs2 ≠ [] := by simp
      calc joinGroups ((a :: b :: gs2) ++ [g])
          = a ++ commaChar :: joinGroups ((b :: gs2) ++ [g]) := rfl
        _ = a ++ commaChar :: (joinGroups (b :: gs2) ++ commaChar :: g) := by rw [ih hne]
        _ = joinGroups (a :: b :: gs2) ++ commaChar :: g := by
              rw [joinGroups_pair]; simp

theorem group3_short (ds : List Char) (h : ds.length ≤ 3) : group3 ds = ds := by
  rcases ds with _ | ⟨a, _ | ⟨b, _ | ⟨c, _ | ⟨d, r⟩⟩⟩⟩
  · rfl
  · rfl
  · rfl
  · rfl
  · simp at h

theorem group3_long (a b c d : Char) (r : List Char) :
    group3 (a :: b :: c :: d :: r) = a :: b :: c :: commaChar :: group3 (d :: r) := rfl

theorem group3_groups : ∀ (n : Nat) (ds : List Char), ds.length ≤ n → ds ≠ [] →
    (∀ c ∈ ds, c.isDigit = true) →
    ∃ (g0 : List Char) (gss : List (List Char)),
      (group3 ds).reverse = joinGroups (g0 :: gss)
      ∧ 1 ≤ g0.length ∧ g0.length ≤ 3 ∧ (∀ c ∈ g0, c.isDigit = true)
      ∧ (∀ g ∈ gss, g.length = 3 ∧ ∀ c ∈ g, c.isDigit = true) := by
  intro n
  induction n with
  | zero =>
    intro ds h hne _
    rw [Nat.le_zero, List.length_eq_zero] at h
    exact absurd h hne
  | succ n ih =>
    intro ds hlen hne hdig
    by_cases hs : ds.length ≤ 3
    · refine ⟨ds.reverse, [], ?_, ?_, ?_, ?_, ?_⟩
      · rw [group3_short ds hs]; rfl
      · rw [List.length_reverse]
        have := List.length_pos.mpr hne
        omega
      · rw [List.length_reverse]; exact hs
      · intro c hc; exact hdig c (List.mem_reverse.mp hc)
      · simp
    · rcases ds with _ | ⟨a, _ | ⟨b, _ | ⟨c, _ | ⟨d, r⟩⟩⟩⟩
      · exact absurd (by simp) hs
      · exact absurd (by simp) hs
      · exact absurd (by simp) hs
      · exact absurd (by simp) hs
      · have hlen' : (d :: r).length ≤ n := by
          simp only [List.length_cons] at hlen ⊢
          omega
        have hdig' : ∀ x ∈ d :: r, x.isDigit = true := by
          intro x hx
          exact hdig x (by simp [hx, List.mem_cons])
        obtain ⟨g0, gss, heq, h1, h2, h3, h4⟩ := ih (d :: r) hlen' (by simp) hdig'
        refine ⟨g0, gss ++ [[c, b, a]], ?_, h1, h2, h3, ?_⟩
        · rw [group3_long]
          have : g0 :: (gss ++ [[c, b, a]]) = (g0 :: gss) ++ [[c, b, a]] := rfl
          rw [this, joinGroups_append _ _ (by simp), ← heq]
          simp
        · intro g hg
          rcases List.mem_append.mp hg with hg | hg
          · exact h4 g hg
          · simp only [List.mem_singleton] at hg
            subst hg
            refine ⟨rfl, ?_⟩
            intro x hx
            have : x = c ∨ x = b ∨ x = a := by simpa using hx
            rcases this with rfl | rfl | rfl <;> exact hdig x (by simp)

theorem groupDigits_groups (n : Nat) :
    ∃ (g0 : List Char) (gss : List (List Char)),
      (groupDigits n).data = joinGroups (g0 :: gss)
      ∧ 1 ≤ g0.length ∧ g0.length ≤ 3 ∧ (∀ c ∈ g0, c.isDigit = true)
      ∧ (∀ g ∈ gss, g.length = 3 ∧ ∀ c ∈ g, c.isDigit = true) := by
  obtain ⟨g0, gss, heq, h1, h2, h3, h4⟩ :=
    group3_groups ((natDigits n).reverse.length) ((natDigits n).reverse) le_rfl
      (by simp [natDigits_ne_nil])
      (fun c hc => natDigits_all_digit n c (List.mem_reverse.mp hc))
  exact ⟨g0, gss, by simpa [groupDigits] using heq, h1, h2, h3, h4⟩

theorem pad2_two_digits (m : Nat) (h : m < 100) :
    (pad2 m).data.length = 2 ∧ ∀ c ∈ (pad2 m).data, c.isDigit = true := by
  constructor
  · have h1 := natDigits_len_le_two m h
    have h2 := List.length_pos.mpr (natDigits_ne_nil m)
    simp only [pad2, String.data, padLeft0, List.length_append, List.length_replicate]
    omega
  · intro c hc
    simp only [pad2, String.data, padLeft0, List.mem_append] at hc
    rcases hc with hc | hc
    · have : c = digitChar 0 := List.eq_of_mem_replicate hc
      subst this
      decide
    · exact natDigits_all_digit m c hc

theorem formatComma2_shape (q : ℚ) :
    ∃ (g0 : List Char) (gss : List (List Char)) (cents : List Char),
      (formatComma2 q).data
        = (if q.num < 0 then [Char.ofNat 45] else []) ++ joinGroups (g0 :: gss)
          ++ Char.ofNat 46 :: cents
      ∧ cents.length = 2 ∧ (∀ c ∈ cents, c.isDigit = true)
      ∧ 1 ≤ g0.length ∧ g0.length ≤ 3 ∧ (∀ c ∈ g0, c.isDigit = true)
      ∧ (∀ g ∈ gss, g.length = 3 ∧ ∀ c ∈ g, c.isDigit = true) := by
  obtain ⟨g0, gss, heq, h1, h2, h3, h4⟩ :=
    groupDigits_groups
      ((if 2 * (q.num.natAbs * 100 % q.den) < q.den then q.num.natAbs * 100 / q.den
        else if q.den < 2 * (q.num.natAbs * 100 % q.den) then q.num.natAbs * 100 / q.den + 1
        else if q.num.natAbs * 100 / q.den % 2 = 0 then q.num.natAbs * 100 / q.den
        else q.num.natAbs * 100 / q.den + 1) / 100)
  obtain ⟨hp1, hp2⟩ := pad2_two_digits
    ((if 2 * (q.num.natAbs * 100 % q.den) < q.den then q.num.natAbs * 100 / q.den
      else if q.den < 2 * (q.num.natAbs * 100 % q.den) then q.num.natAbs * 100 / q.den + 1
      else if q.num.natAbs * 100 / q.den % 2 = 0 then q.num.natAbs * 100 / q.den
      else q.num.natAbs * 100 / q.den + 1) % 100)
    (Nat.mod_lt _ (by omega))
  refine ⟨g0, gss, _, ?_, hp1, hp2, h1, h2, h3, h4⟩
  simp only [formatComma2, String.data_append, heq]
  by_cases hq : q.num < 0 <;> simp [hq]

/-! ## Substring-containment lemmas -/

theorem containsAux_nil (pat : List Char) : containsAux pat [] = pat.isPrefixOf [] := rfl

theorem containsAux_cons (pat : List Char) (c : Char) (t : List Char) :
    containsAux pat (c :: t) = if pat.isPrefixOf (c :: t) then true else containsAux pat t := rfl

theorem containsAux_iff (pat txt : List Char) :
    containsAux pat txt = true ↔ pat <:+: txt := by
  induction txt with
  | nil =>
    rw [containsAux_nil, List.isPrefixOf_iff_prefix]
    simp
  | cons c t ih =>
    rw [containsAux_cons, List.infix_cons_iff, ← ih, ← List.isPrefixOf_iff_prefix]
    by_cases h : pat.isPrefixOf (c :: t) <;> simp [h]

theorem contains_iff (s sub : String) : Contains s sub ↔ sub.data <:+: s.data :=
  containsAux_iff sub.data s.data

theorem contains_of_data (s sub : String) (u v : List Char)
    (h : u ++ sub.data ++ v = s.data) : Contains s sub :=
  (contains_iff s sub).mpr ⟨u, v, h⟩

/-- Containment survives extending the text on the left. -/
theorem Contains.appendL {t sub : String} (s : String) (h : Contains t sub) :
    Contains (s ++ t) sub := by
  rcases (contains_iff t sub).mp h with ⟨u, v, huv⟩
  exact contains_of_data _ _ (s.data ++ u) v (by rw [String.data_append, ← huv]; simp)

/-- Containment survives extending the text on the right. -/
theorem Contains.appendR {s sub : String} (t : String) (h : Contains s sub) :
    Contains (s ++ t) sub := by
  rcases (contains_iff s sub).mp h with ⟨u, v, huv⟩
  exact contains_of_data _ _ u (v ++ t.data) (by rw [String.data_append, ← huv]; simp)

/-- A middle segment of a three-way concatenation is contained. -/
theorem contains_append_mid (a sub b : String) : Contains (a ++ sub ++ b) sub :=
  contains_of_data _ _ a.data b.data (by simp [String.data_append])

/-- A segment boundary pattern: in `(p ++ s1) ++ mid`, the tail `s1 ++ mid`
is contained. -/
theorem contains_tail2 (p s1 mid : String) : Contains ((p ++ s1) ++ mid) (s1 ++ mid) :=
  contains_of_data _ _ p.data [] (by simp [String.data_append])

/-- A segment boundary pattern over three segments: in
`((p ++ s1) ++ mid) ++ s2`, the tail `(s1 ++ mid) ++ s2` is contained. -/
theorem contains_tail3 (p s1 mid s2 : String) :
    Contains (((p ++ s1) ++ mid) ++ s2) ((s1 ++ mid) ++ s2) :=
  contains_of_data _ _ p.data [] (by simp [String.data_append])

/-! ## Numeric-getter and total lemmas -/

theorem getNum_of_absent (l : FieldMap) (k : String) (h : lookupField l k = none) :
    getNum l k = 0 := by
  simp [getNum, pyGet, h, orZero, truthy, numOf]

theorem getNum_of_null (l : FieldMap) (k : String) (h : lookupField l k = some .null) :
    getNum l k = 0 := by
  simp [getNum, pyGet, h, orZero, truthy, numOf]

theorem getNum_of_num (l : FieldMap) (k : String) (q : ℚ)
    (h : lookupField l k = some (.num q)) : getNum l k = q := by
  simp only [getNum, pyGet, h, Option.getD_some, orZero, truthy]
  by_cases hq : q = 0
  · subst hq; simp [numOf]
  · simp [numOf, hq]

theorem foldl_add_map (f : FieldMap → ℚ) :
    ∀ (ls : List FieldMap) (a : ℚ), ls.foldl (fun acc l => acc + f l) a = a + (ls.map f).sum := by
  intro ls
  induction ls with
  | nil => intro a; simp
  | cons x xs ih =>
    intro a
    simp only [List.foldl_cons, List.map_cons, List.sum_cons, ih, add_assoc]

theorem computeTotal_eq_sum (quote_lines : List FieldMap)
    (h : ∀ l ∈ quote_lines, lookupField l "fields" = none) :
    computeTotal quote_lines = (quote_lines.map (fun l => getNum l "TotalPrice")).sum := by
  rw [computeTotal, foldl_add_map, zero_add]
  congr 1
  apply List.map_congr_left
  intro l hl
  rw [line_fields, h l hl]

/-! ## Handler-path lemmas -/

theorem gqp_query1_error (env : Env) (req : GenerateQuotePdfRequest) (e : Exn)
    (h : env.queryRes (opp_query req.opportunityId) = .error e) :
    generate_quote_pdf env req
      = (.httpError 500 (internalErrorBody e), [.query (opp_query req.opportunityId)]) := by
  simp only [generate_quote_pdf, h]

theorem gqp_query1_empty (env : Env) (req : GenerateQuotePdfRequest)
    (h : env.queryRes (opp_query req.opportunityId) = .ok []) :
    generate_quote_pdf env req
      = (.httpError 404 notFoundBody, [.query (opp_query req.opportunityId)]) := by
  simp only [generate_quote_pdf, h]

theorem gqp_render_error (env : Env) (req : GenerateQuotePdfRequest)
    (r : QueryRecord) (rs lineRecs : List QueryRecord) (e : Exn)
    (h1 : env.queryRes (opp_query req.opportunityId) = .ok (r :: rs))
    (h2 : env.queryRes (quote_lines_query req.opportunityId) = .ok lineRecs)
    (h3 : env.renderRes (create_pdf_from_opportunity_data r.fields
            (lineRecs.map QueryRecord.fields) req.includeTerms req.templateName
            req.customHeader req.customFooter env.nowDate) = .error e) :
    generate_quote_pdf env req
      = (.httpError 500 (internalErrorBody e),
         [.query (opp_query req.opportunityId), .query (quote_lines_query req.opportunityId)]) := by
  simp only [generate_quote_pdf, h1, h2, h3]

theorem gqp_query2_error (env : Env) (req : GenerateQuotePdfRequest)
    (r : QueryRecord) (rs : List QueryRecord) (e : Exn)
    (h1 : env.queryRes (opp_query req.opportunityId) = .ok (r :: rs))
    (h2 : env.queryRes (quote_lines_query req.opportunityId) = .error e) :
    generate_quote_pdf env req
      = (.httpError 500 (internalErrorBody e),
         [.query (opp_query req.opportunityId), .query (quote_lines_query req.opportunityId)]) := by
  simp only [generate_quote_pdf, h1, h2]

theorem gqp_create_cv_error (env : Env) (req : GenerateQuotePdfRequest)
    (r : QueryRecord) (rs lineRecs : List QueryRecord) (pdf_bytes : List Nat) (e : Exn)
    (h1 : env.queryRes (opp_query req.opportunityId) = .ok (r :: rs))
    (h2 : env.queryRes (quote_lines_query req.opportunityId) = .ok lineRecs)
    (h3 : env.renderRes (create_pdf_from_opportunity_data r.fields
            (lineRecs.map QueryRecord.fields) req.includeTerms req.templateName
            req.customHeader req.customFooter env.nowDate) = .ok pdf_bytes)
    (h4 : env.createRes "ContentVersion"
            (file_data req.opportunityId r.fields env pdf_bytes) = .error e) :
    generate_quote_pdf env req
      = (.httpError 500 (internalErrorBody e),
         [.query (opp_query req.opportunityId), .query (quote_lines_query req.opportunityId),
          .create "ContentVersion" (file_data req.opportunityId r.fields env pdf_bytes)]) := by
  simp only [generate_quote_pdf, h1, h2, h3, h4]

theorem gqp_cd_query_error (env : Env) (req : GenerateQuotePdfRequest)
    (r : QueryRecord) (rs lineRecs : List QueryRecord) (pdf_bytes : List Nat)
    (content_version_id : String) (e : Exn)
    (h1 : env.queryRes (opp_query req.opportunityId) = .ok (r :: rs))
    (h2 : env.queryRes (quote_lines_query req.opportunityId) = .ok lineRecs)
    (h3 : env.renderRes (create_pdf_from_opportunity_data r.fields
            (lineRecs.map QueryRecord.fields) req.includeTerms req.templateName
            req.customHeader req.customFooter env.nowDate) = .ok pdf_bytes)
    (h4 : env.createRes "ContentVersion"
            (file_data req.opportunityId r.fields env pdf_bytes) = .ok content_version_id)
    (h5 : env.queryRes (cd_query content_version_id) = .error e) :
    generate_quote_pdf env req
      = (.httpError 500 (internalErrorBody e),
         [.query (opp_query req.opportunityId), .query (quote_lines_query req.opportunityId),
          .create "ContentVersion" (file_data req.opportunityId r.fields env pdf_bytes),
          .query (cd_query content_version_id)]) := by
  simp only [generate_quote_pdf, h1, h2, h3, h4, h5]

theorem gqp_cd_empty (env : Env) (req : GenerateQuotePdfRequest)
    (r : QueryRecord) (rs lineRecs : List QueryRecord) (pdf_bytes : List Nat)
    (content_version_id : String)
    (h1 : env.queryRes (opp_query req.opportunityId) = .ok (r :: rs))
    (h2 : env.queryRes (quote_lines_query req.opportunityId) = .ok lineRecs)
    (h3 : env.renderRes (create_pdf_from_opportunity_data r.fields
            (lineRecs.map QueryRecord.fields) req.includeTerms req.templateName
            req.customHeader req.customFooter env.nowDate) = .ok pdf_bytes)
    (h4 : env.createRes "ContentVersion"
            (file_data req.opportunityId r.fields env pdf_bytes) = .ok content_version_id)
    (h5 : env.queryRes (cd_query content_version_id) = .ok []) :
    generate_quote_pdf env req
      = (.httpError 500 (internalErrorBody ⟨"IndexError", "list index out of range"⟩),
         [.query (opp_query req.opportunityId), .query (quote_lines_query req.opportunityId),
          .create "ContentVersion" (file_data req.opportunityId r.fields env pdf_bytes),
          .query (cd_query content_version_id)]) := by
  simp only [generate_quote_pdf, h1, h2, h3, h4, h5]

theorem gqp_cd_missing_key (env : Env) (req : GenerateQuotePdfRequest)
    (r : QueryRecord) (rs lineRecs : List QueryRecord) (pdf_bytes : List Nat)
    (content_version_id : String) (r3 : QueryRecord) (rest3 : List QueryRecord)
    (h1 : env.queryRes (opp_query req.opportunityId) = .ok (r :: rs))
    (h2 : env.queryRes (quote_lines_query req.opportunityId) = .ok lineRecs)
    (h3 : env.renderRes (create_pdf_from_opportunity_data r.fields
            (lineRecs.map QueryRecord.fields) req.includeTerms req.templateName
            req.customHeader req.customFooter env.nowDate) = .ok pdf_bytes)
    (h4 : env.createRes "ContentVersion"
            (file_data req.opportunityId r.fields env pdf_bytes) = .ok content_version_id)
    (h5 : env.queryRes (cd_query content_version_id) = .ok (r3 :: rest3))
    (h6 : lookupField r3.fields "ContentDocumentId" = none) :
    generate_quote_pdf env req
      = (.httpError 500 (internalErrorBody ⟨"KeyError", "\x27ContentDocumentId\x27"⟩),
         [.query (opp_query req.opportunityId), .query (quote_lines_query req.opportunityId),
          .create "ContentVersion" (file_data req.opportunityId r.fields env pdf_bytes),
          .query (cd_query content_version_id)]) := by
  simp only [generate_quote_pdf, h1, h2, h3, h4, h5, h6]

theorem gqp_create_cdl_error (env : Env) (req : GenerateQuotePdfRequest)
    (r : QueryRecord) (rs lineRecs : List QueryRecord) (pdf_bytes : List Nat)
    (content_version_id : String) (r3 : QueryRecord) (rest3 : List QueryRecord)
    (content_document_id : Value) (e : Exn)
    (h1 : env.queryRes (opp_query req.opportunityId) = .ok (r :: rs))
    (h2 : env.queryRes (quote_lines_query req.opportunityId) = .ok lineRecs)
    (h3 : env.renderRes (create_pdf_from_opportunity_data r.fields
            (lineRecs.map QueryRecord.fields) req.includeTerms req.templateName
            req.customHeader req.customFooter env.nowDate) = .ok pdf_bytes)
    (h4 : env.createRes "ContentVersion"
            (file_data req.opportunityId r.fields env pdf_bytes) = .ok content_version_id)
    (h5 : env.queryRes (cd_query content_version_id) = .ok (r3 :: rest3))
    (h6 : lookupField r3.fields "ContentDocumentId" = some content_document_id)
    (h7 : env.createRes "ContentDocumentLink"
            (cdl_data req.opportunityId content_document_id) = .error e) :
    generate_quote_pdf env req
      = (.httpError 500 (internalErrorBody e),
         [.query (opp_query req.opportunityId), .query (quote_lines_query req.opportunityId),
          .create "ContentVersion" (file_data req.opportunityId r.fields env pdf_bytes),
          .query (cd_query content_version_id),
          .create "ContentDocumentLink" (cdl_data req.opportunityId content_document_id)]) := by
  simp only [generate_quote_pdf, h1, h2, h3, h4, h5, h6, h7]

/-- Every run of the handler ends in exactly one of: the success response,
the deliberate 404 NOT_FOUND, or a 500 whose body is `internalErrorBody`
of some exception — there is no other outcome, whatever the environment
does at any of steps 1-6. -/
theorem gqp_outcomes (env : Env) (req : GenerateQuotePdfRequest) :
    (∃ resp, (generate_quote_pdf env req).1 = .ok resp)
    ∨ (generate_quote_pdf env req).1 = .httpError 404 notFoundBody
    ∨ ∃ e : Exn, (generate_quote_pdf env req).1 = .httpError 500 (internalErrorBody e) := by
  cases hq1 : env.queryRes (opp_query req.opportunityId) with
  | error e => exact Or.inr (Or.inr ⟨e, by simp [generate_quote_pdf, hq1]⟩)
  | ok recs =>
    cases recs with
    | nil => exact Or.inr (Or.inl (by simp [generate_quote_pdf, hq1]))
    | cons r rest =>
      cases hq2 : env.queryRes (quote_lines_query req.opportunityId) with
      | error e => exact Or.inr (Or.inr ⟨e, by simp [generate_quote_pdf, hq1, hq2]⟩)
      | ok lineRecs =>
        cases hr : env.renderRes (create_pdf_from_opportunity_data r.fields
            (lineRecs.map QueryRecord.fields) req.includeTerms req.templateName
            req.customHeader req.customFooter env.nowDate) with
        | error e => exact Or.inr (Or.inr ⟨e, by simp [generate_quote_pdf, hq1, hq2, hr]⟩)
        | ok pdf_bytes =>
          cases hc1 : env.createRes "ContentVersion"
              (file_data req.opportunityId r.fields env pdf_bytes) with
          | error e => exact Or.inr (Or.inr ⟨e, by simp [generate_quote_pdf, hq1, hq2, hr, hc1]⟩)
          | ok cvid =>
            cases hq3 : env.queryRes (cd_query cvid) with
            | error e =>
              exact Or.inr (Or.inr ⟨e, by simp [generate_quote_pdf, hq1, hq2, hr, hc1, hq3]⟩)
            | ok recs3 =>
              cases recs3 with
              | nil =>
                exact Or.inr (Or.inr ⟨⟨"IndexError", "list index out of range"⟩,
                  by simp [generate_quote_pdf, hq1, hq2, hr, hc1, hq3]⟩)
              | cons r3 rest3 =>
                cases hlk : lookupField r3.fields "ContentDocumentId" with
                | none =>
                  exact Or.inr (Or.inr ⟨⟨"KeyError", "\x27ContentDocumentId\x27"⟩,
                    by simp [generate_quote_pdf, hq1, hq2, hr, hc1, hq3, hlk]⟩)
                | some cdid =>
                  cases hc2 : env.createRes "ContentDocumentLink"
                      (cdl_data req.opportunityId cdid) with
                  | error e =>
                    exact Or.inr (Or.inr ⟨e,
                      by simp [generate_quote_pdf, hq1, hq2, hr, hc1, hq3, hlk, hc2]⟩)
                  | ok lid =>
                    exact Or.inl ⟨⟨"success", "PDF generated and attached to Opportunity.",
                      some (pyStr cdid), some cvid,
                      if env.instanceUrl = "" then none
                      else some (env.instanceUrl ++ "/" ++ pyStr cdid)⟩,
                      by simp [generate_quote_pdf, hq1, hq2, hr, hc1, hq3, hlk, hc2]⟩

/-! ## C3: unrecognized template names silently fall back to "standard" -/

/-- C3.  For every template name outside the three built-in names, the
styles returned by `get_template_styles` and the composer's whole output
are identical to those for `"standard"`, with all other inputs equal; no
error arises for an unrecognized name. -/
theorem c3_unknown_template_falls_back_to_standard (t : String)
    (h1 : t ≠ "standard") (h2 : t ≠ "professional") (h3 : t ≠ "minimal") :
    get_template_styles t = get_template_styles "standard"
    ∧ ∀ (opp : FieldMap) (lines : List FieldMap) (it : Bool)
        (ch cf : Option String) (d : String),
        create_pdf_from_opportunity_data opp lines it t ch cf d
          = create_pdf_from_opportunity_data opp lines it "standard" ch cf d := by
  have e1 : (t == "standard") = false := beq_eq_false_iff_ne.mpr h1
  have e2 : (t == "professional") = false := beq_eq_false_iff_ne.mpr h2
  have e3 : (t == "minimal") = false := beq_eq_false_iff_ne.mpr h3
  have hst : get_template_styles t = get_template_styles "standard" := by
    simp [get_template_styles, template_specific, List.lookup, e1, e2, e3]
  refine ⟨hst, fun opp lines it ch cf d => ?_⟩
  simp only [create_pdf_from_opportunity_data, docBeforeTerms, hst]

/-- Witness for C3 at the spec's example name `"bogus-value"`. -/
theorem c3_unknown_template_falls_back_to_standard_witness :
    ("bogus-value" ≠ "standard" ∧ "bogus-value" ≠ "professional" ∧ "bogus-value" ≠ "minimal")
    ∧ get_template_styles "bogus-value" = get_template_styles "standard"
    ∧ create_pdf_from_opportunity_data sampleOpp [] false "bogus-value" none none sampleDate
        = create_pdf_from_opportunity_data sampleOpp [] false "standard" none none sampleDate := by
  have h := c3_unknown_template_falls_back_to_standard "bogus-value"
    (by decide) (by decide) (by decide)
  exact ⟨⟨by decide, by decide, by decide⟩, h.1, h.2 sampleOpp [] false none none sampleDate⟩

/-! ## C4: unknown Opportunity IDs give exactly 404 NOT_FOUND, one query -/

/-- C4.  For every well-formed request whose Opportunity fetch-one query
returns zero records, the service answers exactly HTTP 404 with the
NOT_FOUND body, and the remote-call trace is the single fetch-one query:
no write call and no retry. -/
theorem c4_missing_opportunity_is_404_not_found (env : Env)
    (req : GenerateQuotePdfRequest)
    (hval : validateRequest req = true)
    (hq : env.queryRes (opp_query req.opportunityId) = .ok []) :
    handle_request env req
      = (.httpError 404 notFoundBody, [.query (opp_query req.opportunityId)])
    ∧ notFoundBody.errorCode = "NOT_FOUND"
    ∧ ((handle_request env req).2.filter isCreate) = [] := by
  have hmain : handle_request env req
      = (.httpError 404 notFoundBody, [.query (opp_query req.opportunityId)]) := by
    simp only [handle_request, hval, if_true]
    exact gqp_query1_empty env req hq
  refine ⟨hmain, rfl, ?_⟩
  rw [hmain]
  rfl

/-- Witness for C4: a concrete valid request against a store with no
matching record. -/
theorem c4_missing_opportunity_is_404_not_found_witness :
    validateRequest sampleReq = true
    ∧ emptyEnv.queryRes (opp_query sampleReq.opportunityId) = .ok []
    ∧ handle_request emptyEnv sampleReq
        = (.httpError 404 notFoundBody, [.query (opp_query sampleReq.opportunityId)]) :=
  ⟨by decide, rfl,
   (c4_missing_opportunity_is_404_not_found emptyEnv sampleReq (by decide) rfl).1⟩

/-! ## C6: malformed requests are rejected with 400 before any remote call -/

/-- C6.  Whenever the Opportunity ID misses the 18-character `006` pattern,
or a provided custom header exceeds 200 characters, or a provided custom
footer exceeds 500 characters, the service answers HTTP 400 and the
remote-call trace is empty: the rejection happens before any query,
create, or render. -/
theorem c6_invalid_request_rejected_before_remote_calls (env : Env)
    (req : GenerateQuotePdfRequest)
    (h : matchesOppIdPattern req.opportunityId = false
         ∨ (∃ s, req.customHeader = some s ∧ 200 < s.data.length)
         ∨ (∃ s, req.customFooter = some s ∧ 500 < s.data.length)) :
    handle_request env req = (.httpError 400 validationErrorBody, []) := by
  have hval : validateRequest req = false := by
    rcases h with h | ⟨s, hs, hl⟩ | ⟨s, hs, hl⟩
    · simp [validateRequest, h]
    · have hd : decide (s.data.length ≤ 200) = false := decide_eq_false (by omega)
      simp only [validateRequest, hs, hd]
      simp
    · have hd : decide (s.data.length ≤ 500) = false := decide_eq_false (by omega)
      simp only [validateRequest, hs, hd]
      simp
  simp [handle_request, hval]

/-- Witness for C6 at the spec's example `opportunityId="bad-format"`. -/
theorem c6_invalid_request_rejected_before_remote_calls_witness :
    matchesOppIdPattern badReq.opportunityId = false
    ∧ handle_request emptyEnv badReq = (.httpError 400 validationErrorBody, []) :=
  ⟨by decide,
   c6_invalid_request_rejected_before_remote_calls emptyEnv badReq (Or.inl (by decide))⟩

/-! ## C7: includeTerms only toggles the fixed terms block -/

/-- C7.  For fixed inputs, the documents for `includeTerms = true` and
`includeTerms = false` share a common prefix and suffix and differ only by
the fixed `TERMS_AND_CONDITIONS` block inserted between them; the prefix
ends after the line-items table (it contains the closing table tag). -/
theorem c7_terms_block_is_only_difference (opp : FieldMap) (lines : List FieldMap)
    (tn : String) (ch cf : Option String) (d : String) :
    ∃ pre post,
      create_pdf_from_opportunity_data opp lines true tn ch cf d
        = pre ++ TERMS_AND_CONDITIONS ++ post
      ∧ create_pdf_from_opportunity_data opp lines false tn ch cf d = pre ++ post
      ∧ Contains pre "</table>" := by
  refine ⟨docBeforeTerms opp lines tn ch d, docAfterTerms cf d, rfl, ?_, ?_⟩
  · show docBeforeTerms opp lines tn ch d ++ terms_section false ++ docAfterTerms cf d = _
    rw [terms_section, if_neg (by simp), String.append_empty]
  · simp only [docBeforeTerms]
    exact Contains.appendL _ (by decide)

/-! ## C10: empty custom header/footer behaves exactly like an absent one -/

/-- C10.  Providing the empty string as custom header (or footer) yields
the very same document as providing nothing, and a non-empty custom
header (or footer) is inserted verbatim as its dedicated paragraph. -/
theorem c10_empty_custom_sections_match_absent (opp : FieldMap) (lines : List FieldMap)
    (it : Bool) (tn : String) (ch cf : Option String) (d : String) (s : String) :
    create_pdf_from_opportunity_data opp lines it tn (some "") cf d
      = create_pdf_from_opportunity_data opp lines it tn none cf d
    ∧ create_pdf_from_opportunity_data opp lines it tn ch (some "") d
      = create_pdf_from_opportunity_data opp lines it tn ch none d
    ∧ (s ≠ "" →
        Contains (create_pdf_from_opportunity_data opp lines it tn (some s) cf d)
          ("<p class=\x27custom-header\x27>" ++ s ++ "</p>"))
    ∧ (s ≠ "" →
        Contains (create_pdf_from_opportunity_data opp lines it tn ch (some s) d)
          ("<p class=\x27custom-footer\x27>" ++ s ++ "</p>")) := by
  refine ⟨rfl, rfl, ?_, ?_⟩
  · intro hs
    have hh : header_section (some s) = "<p class=\x27custom-header\x27>" ++ s ++ "</p>" := by
      simp [header_section, beq_eq_false_iff_ne.mpr hs]
    simp only [create_pdf_from_opportunity_data, docBeforeTerms, hh]
    apply Contains.appendR
    apply Contains.appendR
    apply Contains.appendR
    apply Contains.appendR
    apply Contains.appendR
    apply Contains.appendR
    apply Contains.appendR
    apply Contains.appendR
    apply Contains.appendR
    apply Contains.appendR
    apply Contains.appendR
    apply Contains.appendR
    apply Contains.appendR
    apply Contains.appendR
    apply Contains.appendR
    apply Contains.appendR
    apply Contains.appendR
    apply Contains.appendR
    apply Contains.appendR
    exact contains_append_mid _ _ _
  · intro hs
    have hh : footer_section (some s) = "<p class=\x27custom-footer\x27>" ++ s ++ "</p>" := by
      simp [footer_section, beq_eq_false_iff_ne.mpr hs]
    simp only [create_pdf_from_opportunity_data, docAfterTerms, hh]
    apply Contains.appendL
    apply Contains.appendR
    apply Contains.appendR
    exact contains_append_mid _ _ _

/-- Witness for C10 at a concrete non-empty custom text. -/
theorem c10_empty_custom_sections_match_absent_witness :
    (("Hello" : String) ≠ "")
    ∧ create_pdf_from_opportunity_data sampleOpp [] false "standard" (some "") none sampleDate
        = create_pdf_from_opportunity_data sampleOpp [] false "standard" none none sampleDate
    ∧ Contains (create_pdf_from_opportunity_data sampleOpp [] false "standard"
          (some "Hello") none sampleDate)
        ("<p class=\x27custom-header\x27>" ++ "Hello" ++ "</p>")
    ∧ Contains (create_pdf_from_opportunity_data sampleOpp [] false "standard"
          none (some "Hello") sampleDate)
        ("<p class=\x27custom-footer\x27>" ++ "Hello" ++ "</p>") := by
  have h := c10_empty_custom_sections_match_absent sampleOpp [] false "standard"
    none none sampleDate "Hello"
  exact ⟨by decide, h.1, h.2.2.1 (by decide), h.2.2.2 (by decide)⟩

/-! ## C9: account-name resolution and N/A placeholders -/

/-- C9.  The rendered account name comes from the nested Account mapping's
`Name` field when Account is present as a structured mapping, else from the
flattened `"Account.Name"` key, else it is `"N/A"` (also when the nested
mapping lacks a `Name`); the other non-numeric Opportunity fields render as
`"N/A"` when absent; and the composer renders the resolved account name in
the Account line of the document. -/
theorem c9_account_name_resolution :
    (∀ (opp m : FieldMap) (v : Value),
        lookupField opp "Account" = some (.obj m) → lookupField m "Name" = some v →
        account_name opp = v)
    ∧ (∀ (opp m : FieldMap),
        lookupField opp "Account" = some (.obj m) → lookupField m "Name" = none →
        account_name opp = .str "N/A")
    ∧ (∀ (opp : FieldMap) (v : Value),
        (∀ m : FieldMap, lookupField opp "Account" ≠ some (.obj m)) →
        lookupField opp "Account.Name" = some v → account_name opp = v)
    ∧ (∀ opp : FieldMap,
        (∀ m : FieldMap, lookupField opp "Account" ≠ some (.obj m)) →
        lookupField opp "Account.Name" = none → account_name opp = .str "N/A")
    ∧ (∀ (opp : FieldMap) (k : String),
        (k = "Name" ∨ k = "Id" ∨ k = "StageName" ∨ k = "CloseDate") →
        lookupField opp k = none → pyStr (pyGet opp k (.str "N/A")) = "N/A")
    ∧ (∀ (opp : FieldMap) (lines : List FieldMap) (it : Bool) (tn : String)
        (ch cf : Option String) (d : String),
        Contains (create_pdf_from_opportunity_data opp lines it tn ch cf d)
          ("<strong>Account:</strong> " ++ pyStr (account_name opp))) := by
  have hflat : ∀ opp : FieldMap, (∀ m : FieldMap, lookupField opp "Account" ≠ some (.obj m)) →
      account_name opp = pyGet opp "Account.Name" (.str "N/A") := by
    intro opp hA
    unfold account_name
    cases hx : lookupField opp "Account" with
    | none => rfl
    | some v' =>
      cases v' with
      | obj m => exact absurd hx (hA m)
      | null => rfl
      | str s => rfl
      | num q => rfl
  refine ⟨?_, ?_, ?_, ?_, ?_, ?_⟩
  · intro opp m v hA hN
    simp [account_name, hA, pyGet, hN]
  · intro opp m hA hN
    simp [account_name, hA, pyGet, hN]
  · intro opp v hA hF
    rw [hflat opp hA]
    simp [pyGet, hF]
  · intro opp hA hF
    rw [hflat opp hA]
    simp [pyGet, hF]
  · intro opp k _ h
    simp [pyGet, h, pyStr]
  · intro opp lines it tn ch cf d
    simp only [create_pdf_from_opportunity_data, docBeforeTerms]
    apply Contains.appendR
    apply Contains.appendR
    apply Contains.appendR
    apply Contains.appendR
    apply Contains.appendR
    apply Contains.appendR
    apply Contains.appendR
    apply Contains.appendR
    apply Contains.appendR
    apply Contains.appendR
    apply Contains.appendR
    exact contains_tail2 _ _ _

/-- Witness for C9: nested, flattened, and rendered account names at
concrete records. -/
theorem c9_account_name_resolution_witness :
    account_name nestedAccOpp = .str "Globex"
    ∧ account_name flatAccOpp = .str "Initech"
    ∧ Contains (create_pdf_from_opportunity_data sampleOpp [] false "standard" none none sampleDate)
        ("<strong>Account:</strong> " ++ pyStr (account_name sampleOpp)) := by
  refine ⟨?_, ?_, ?_⟩
  · exact c9_account_name_resolution.1 nestedAccOpp [("Name", .str "Globex")] (.str "Globex") rfl rfl
  · refine c9_account_name_resolution.2.2.1 flatAccOpp (.str "Initech") ?_ rfl
    intro m h
    rw [show lookupField flatAccOpp "Account" = none from rfl] at h
    exact Option.noConfusion h
  · exact c9_account_name_resolution.2.2.2.2.2 sampleOpp [] false "standard" none none sampleDate

/-! ## C1 (corrected): empty line items yield the placeholder but no total -/

/-- C1 counterexample.  At a concrete valid Opportunity with no line
items, the document contains the placeholder but no `0.00` at all: the
claim that the document also shows a 0.00 total is false, because the
placeholder of line 279 replaces the whole accumulated `line_items_html`,
total row included. -/
theorem c1_counterexample_no_total_when_lines_empty :
    Contains (create_pdf_from_opportunity_data sampleOpp [] false "standard" none none sampleDate)
      "No line items found"
    ∧ strContains (create_pdf_from_opportunity_data sampleOpp [] false "standard" none none
        sampleDate) "0.00" = false := by
  constructor
  · decide
  · decide

/-- C1 as amended.  For every Opportunity with an empty line-item
sequence the document contains the full placeholder row spanning all four
columns; the total row is not rendered — at the counterexample input the
bolded total cell `$0.00` is absent. -/
theorem c1_empty_lines_render_placeholder_without_total :
    (∀ (opp : FieldMap) (it : Bool) (tn : String) (ch cf : Option String) (d : String),
       Contains (create_pdf_from_opportunity_data opp [] it tn ch cf d) no_items_row)
    ∧ strContains (create_pdf_from_opportunity_data sampleOpp [] false "standard" none none
        sampleDate) "<strong>$0.00</strong>" = false := by
  constructor
  · intro opp it tn ch cf d
    unfold create_pdf_from_opportunity_data docBeforeTerms
    simp only [List.isEmpty_nil, if_true]
    exact ((contains_append_mid _ _ _).appendR _).appendR _
  · decide

/-! ## C2: the rendered total is the sum of the stored per-line totals -/

/-- C2.  For every non-empty line-item sequence (of plain field maps), the
accumulated total equals the sum of each line's own stored `TotalPrice`
(absent and null counted as 0, stored numbers taken as they are — nothing
is re-derived from quantity and unit price), the document renders that
total in the bolded total cell, and every `",.2f"`-rendered currency value
consists of comma-separated digit groups (first group of one to three
digits, the rest exactly three) and exactly two decimal digits. -/
theorem c2_total_is_sum_of_stored_line_totals
    (quote_lines : List FieldMap) (opp : FieldMap) (it : Bool) (tn : String)
    (ch cf : Option String) (d : String)
    (hne : quote_lines ≠ [])
    (hplain : ∀ l ∈ quote_lines, lookupField l "fields" = none) :
    computeTotal quote_lines = (quote_lines.map (fun l => getNum l "TotalPrice")).sum
    ∧ Contains (create_pdf_from_opportunity_data opp quote_lines it tn ch cf d)
        ("<strong>$" ++ formatComma2 (computeTotal quote_lines) ++ "</strong>")
    ∧ (∀ l : FieldMap, lookupField l "TotalPrice" = none → getNum l "TotalPrice" = 0)
    ∧ (∀ l : FieldMap, lookupField l "TotalPrice" = some .null → getNum l "TotalPrice" = 0)
    ∧ (∀ (l : FieldMap) (q : ℚ),
        lookupField l "TotalPrice" = some (.num q) → getNum l "TotalPrice" = q)
    ∧ (∀ q : ℚ, ∃ (g0 : List Char) (gss : List (List Char)) (cents : List Char),
        (formatComma2 q).data
          = (if q.num < 0 then [Char.ofNat 45] else []) ++ joinGroups (g0 :: gss)
            ++ Char.ofNat 46 :: cents
        ∧ cents.length = 2 ∧ (∀ c ∈ cents, c.isDigit = true)
        ∧ 1 ≤ g0.length ∧ g0.length ≤ 3 ∧ (∀ c ∈ g0, c.isDigit = true)
        ∧ (∀ g ∈ gss, g.length = 3 ∧ ∀ c ∈ g, c.isDigit = true)) := by
  refine ⟨computeTotal_eq_sum _ hplain, ?_,
    fun l h => getNum_of_absent l _ h,
    fun l h => getNum_of_null l _ h,
    fun l q h => getNum_of_num l _ q h,
    fun q => formatComma2_shape q⟩
  cases quote_lines with
  | nil => exact absurd rfl hne
  | cons x xs =>
    simp only [create_pdf_from_opportunity_data, docBeforeTerms]
    rw [show (x :: xs).isEmpty = false from rfl, if_neg (by simp)]
    apply Contains.appendR
    apply Contains.appendR
    apply Contains.appendR
    apply Contains.appendL
    simp only [line_items_html, total_row_html]
    apply Contains.appendL
    apply Contains.appendR
    exact contains_tail3 _ _ _ _

/-- Witness for C2 at the spec's example: line totals 100.00 and 250.50
sum to 350.50 and the document shows the bolded `$350.50`. -/
theorem c2_total_is_sum_of_stored_line_totals_witness :
    (([c2_line1, c2_line2] : List FieldMap) ≠ [])
    ∧ (∀ l ∈ ([c2_line1, c2_line2] : List FieldMap), lookupField l "fields" = none)
    ∧ computeTotal [c2_line1, c2_line2] = Rat.mk' 701 2
    ∧ formatComma2 (computeTotal [c2_line1, c2_line2]) = "350.50"
    ∧ Contains (create_pdf_from_opportunity_data sampleOpp [c2_line1, c2_line2] false "standard"
          none none sampleDate)
        ("<strong>$" ++ formatComma2 (computeTotal [c2_line1, c2_line2]) ++ "</strong>") := by
  have hne : ([c2_line1, c2_line2] : List FieldMap) ≠ [] := by simp
  have hplain : ∀ l ∈ ([c2_line1, c2_line2] : List FieldMap), lookupField l "fields" = none := by
    intro l hl
    simp only [List.mem_cons, List.not_mem_nil, or_false] at hl
    rcases hl with rfl | rfl <;> rfl
  have h := c2_total_is_sum_of_stored_line_totals [c2_line1, c2_line2] sampleOpp false "standard"
    none none sampleDate hne hplain
  have htot : computeTotal [c2_line1, c2_line2] = Rat.mk' 701 2 := by
    have hstep : computeTotal [c2_line1, c2_line2]
        = 0 + getNum (line_fields c2_line1) "TotalPrice"
            + getNum (line_fields c2_line2) "TotalPrice" := rfl
    have e1 : getNum (line_fields c2_line1) "TotalPrice" = Rat.mk' 100 1 := rfl
    have e2 : getNum (line_fields c2_line2) "TotalPrice" = Rat.mk' 501 2 := rfl
    rw [hstep, e1, e2, Rat.mk'_eq_divInt, Rat.mk'_eq_divInt, Rat.mk'_eq_divInt,
      Rat.divInt_eq_div, Rat.divInt_eq_div, Rat.divInt_eq_div]
    norm_num
  exact ⟨hne, hplain, htot, by rw [htot]; decide, h.2.1⟩

/-! ## C5: the exception boundary yields 500 INTERNAL_ERROR; 404 passes -/

/-- C5.  Every exception raised during steps 1-6 of the handler that is
not the deliberately raised 404 is caught at the boundary and converted to
HTTP 500 whose body carries the INTERNAL_ERROR code and the exception's
type name in the details: a failure of the Opportunity query (step 1), of
the line-items query (step 2), of the renderer (step 3, after which no
write call is issued), of the ContentVersion create (step 4), of the
read-back query — including its IndexError and KeyError data-shape
failures (step 5) — and of the ContentDocumentLink create (step 6) each
yield exactly that 500 with the exact call trace up to the failure; the
404 NOT_FOUND passes through unmodified; and whatever the environment
does, the outcome is always the success response, that 404, or a 500 with
an `internalErrorBody` — nothing else. -/
theorem c5_exception_boundary_maps_to_500 (env : Env) (req : GenerateQuotePdfRequest) :
    (∀ e : Exn, env.queryRes (opp_query req.opportunityId) = .error e →
        generate_quote_pdf env req
          = (.httpError 500 (internalErrorBody e), [.query (opp_query req.opportunityId)]))
    ∧ (∀ (r : QueryRecord) (rs : List QueryRecord) (e : Exn),
        env.queryRes (opp_query req.opportunityId) = .ok (r :: rs) →
        env.queryRes (quote_lines_query req.opportunityId) = .error e →
        generate_quote_pdf env req
          = (.httpError 500 (internalErrorBody e),
             [.query (opp_query req.opportunityId),
              .query (quote_lines_query req.opportunityId)]))
    ∧ (∀ (r : QueryRecord) (rs lineRecs : List QueryRecord) (e : Exn),
        env.queryRes (opp_query req.opportunityId) = .ok (r :: rs) →
        env.queryRes (quote_lines_query req.opportunityId) = .ok lineRecs →
        env.renderRes (create_pdf_from_opportunity_data r.fields
          (lineRecs.map QueryRecord.fields) req.includeTerms req.templateName
          req.customHeader req.customFooter env.nowDate) = .error e →
        generate_quote_pdf env req
          = (.httpError 500 (internalErrorBody e),
             [.query (opp_query req.opportunityId),
              .query (quote_lines_query req.opportunityId)])
        ∧ ∀ c ∈ (generate_quote_pdf env req).2, isCreate c = false)
    ∧ (∀ (r : QueryRecord) (rs lineRecs : List QueryRecord) (pdf_bytes : List Nat) (e : Exn),
        env.queryRes (opp_query req.opportunityId) = .ok (r :: rs) →
        env.queryRes (quote_lines_query req.opportunityId) = .ok lineRecs →
        env.renderRes (create_pdf_from_opportunity_data r.fields
          (lineRecs.map QueryRecord.fields) req.includeTerms req.templateName
          req.customHeader req.customFooter env.nowDate) = .ok pdf_bytes →
        env.createRes "ContentVersion"
          (file_data req.opportunityId r.fields env pdf_bytes) = .error e →
        generate_quote_pdf env req
          = (.httpError 500 (internalErrorBody e),
             [.query (opp_query req.opportunityId),
              .query (quote_lines_query req.opportunityId),
              .create "ContentVersion" (file_data req.opportunityId r.fields env pdf_bytes)]))
    ∧ (∀ (r : QueryRecord) (rs lineRecs : List QueryRecord) (pdf_bytes : List Nat)
        (content_version_id : String) (e : Exn),
        env.queryRes (opp_query req.opportunityId) = .ok (r :: rs) →
        env.queryRes (quote_lines_query req.opportunityId) = .ok lineRecs →
        env.renderRes (create_pdf_from_opportunity_data r.fields
          (lineRecs.map QueryRecord.fields) req.includeTerms req.templateName
          req.customHeader req.customFooter env.nowDate) = .ok pdf_bytes →
        env.createRes "ContentVersion"
          (file_data req.opportunityId r.fields env pdf_bytes) = .ok content_version_id →
        env.queryRes (cd_query content_version_id) = .error e →
        generate_quote_pdf env req
          = (.httpError 500 (internalErrorBody e),
             [.query (opp_query req.opportunityId),
              .query (quote_lines_query req.opportunityId),
              .create "ContentVersion" (file_data req.opportunityId r.fields env pdf_bytes),
              .query (cd_query content_version_id)]))
    ∧ (∀ (r : QueryRecord) (rs lineRecs : List QueryRecord) (pdf_bytes : List Nat)
        (content_version_id : String),
        env.queryRes (opp_query req.opportunityId) = .ok (r :: rs) →
        env.queryRes (quote_lines_query req.opportunityId) = .ok lineRecs →
        env.renderRes (create_pdf_from_opportunity_data r.fields
          (lineRecs.map QueryRecord.fields) req.includeTerms req.templateName
          req.customHeader req.customFooter env.nowDate) = .ok pdf_bytes →
        env.createRes "ContentVersion"
          (file_data req.opportunityId r.fields env pdf_bytes) = .ok content_version_id →
        env.queryRes (cd_query content_version_id) = .ok [] →
        generate_quote_pdf env req
          = (.httpError 500 (internalErrorBody ⟨"IndexError", "list index out of range"⟩),
             [.query (opp_query req.opportunityId),
              .query (quote_lines_query req.opportunityId),
              .create "ContentVersion" (file_data req.opportunityId r.fields env pdf_bytes),
              .query (cd_query content_version_id)]))
    ∧ (∀ (r : QueryRecord) (rs lineRecs : List QueryRecord) (pdf_bytes : List Nat)
        (content_version_id : String) (r3 : QueryRecord) (rest3 : List QueryRecord),
        env.queryRes (opp_query req.opportunityId) = .ok (r :: rs) →
        env.queryRes (quote_lines_query req.opportunityId) = .ok lineRecs →
        env.renderRes (create_pdf_from_opportunity_data r.fields
          (lineRecs.map QueryRecord.fields) req.includeTerms req.templateName
          req.customHeader req.customFooter env.nowDate) = .ok pdf_bytes →
        env.createRes "ContentVersion"
          (file_data req.opportunityId r.fields env pdf_bytes) = .ok content_version_id →
        env.queryRes (cd_query content_version_id) = .ok (r3 :: rest3) →
        lookupField r3.fields "ContentDocumentId" = none →
        generate_quote_pdf env req
          = (.httpError 500 (internalErrorBody ⟨"KeyError", "\x27ContentDocumentId\x27"⟩),
             [.query (opp_query req.opportunityId),
              .query (quote_lines_query req.opportunityId),
              .create "ContentVersion" (file_data req.opportunityId r.fields env pdf_bytes),
              .query (cd_query content_version_id)]))
    ∧ (∀ (r : QueryRecord) (rs lineRecs : List QueryRecord) (pdf_bytes : List Nat)
        (content_version_id : String) (r3 : QueryRecord) (rest3 : List QueryRecord)
        (content_document_id : Value) (e : Exn),
        env.queryRes (opp_query req.opportunityId) = .ok (r :: rs) →
        env.queryRes (quote_lines_query req.opportunityId) = .ok lineRecs →
        env.renderRes (create_pdf_from_opportunity_data r.fields
          (lineRecs.map QueryRecord.fields) req.includeTerms req.templateName
          req.customHeader req.customFooter env.nowDate) = .ok pdf_bytes →
        env.createRes "ContentVersion"
          (file_data req.opportunityId r.fields env pdf_bytes) = .ok content_version_id →
        env.queryRes (cd_query content_version_id) = .ok (r3 :: rest3) →
        lookupField r3.fields "ContentDocumentId" = some content_document_id →
        env.createRes "ContentDocumentLink"
          (cdl_data req.opportunityId content_document_id) = .error e →
        generate_quote_pdf env req
          = (.httpError 500 (internalErrorBody e),
             [.query (opp_query req.opportunityId),
              .query (quote_lines_query req.opportunityId),
              .create "ContentVersion" (file_data req.opportunityId r.fields env pdf_bytes),
              .query (cd_query content_version_id),
              .create "ContentDocumentLink" (cdl_data req.opportunityId content_document_id)]))
    ∧ (env.queryRes (opp_query req.opportunityId) = .ok [] →
        generate_quote_pdf env req
          = (.httpError 404 notFoundBody, [.query (opp_query req.opportunityId)]))
    ∧ ((∃ resp, (generate_quote_pdf env req).1 = .ok resp)
        ∨ (generate_quote_pdf env req).1 = .httpError 404 notFoundBody
        ∨ ∃ e : Exn, (generate_quote_pdf env req).1 = .httpError 500 (internalErrorBody e))
    ∧ (∀ e : Exn, (internalErrorBody e).errorCode = "INTERNAL_ERROR"
        ∧ (internalErrorBody e).details = some [("exception", e.typeName)]) := by
  refine ⟨fun e h => gqp_query1_error env req e h,
    fun r rs e h1 h2 => gqp_query2_error env req r rs e h1 h2,
    ?_,
    fun r rs lineRecs pdf_bytes e h1 h2 h3 h4 =>
      gqp_create_cv_error env req r rs lineRecs pdf_bytes e h1 h2 h3 h4,
    fun r rs lineRecs pdf_bytes cvid e h1 h2 h3 h4 h5 =>
      gqp_cd_query_error env req r rs lineRecs pdf_bytes cvid e h1 h2 h3 h4 h5,
    fun r rs lineRecs pdf_bytes cvid h1 h2 h3 h4 h5 =>
      gqp_cd_empty env req r rs lineRecs pdf_bytes cvid h1 h2 h3 h4 h5,
    fun r rs lineRecs pdf_bytes cvid r3 rest3 h1 h2 h3 h4 h5 h6 =>
      gqp_cd_missing_key env req r rs lineRecs pdf_bytes cvid r3 rest3 h1 h2 h3 h4 h5 h6,
    fun r rs lineRecs pdf_bytes cvid r3 rest3 cdid e h1 h2 h3 h4 h5 h6 h7 =>
      gqp_create_cdl_error env req r rs lineRecs pdf_bytes cvid r3 rest3 cdid e
        h1 h2 h3 h4 h5 h6 h7,
    fun h => gqp_query1_empty env req h,
    gqp_outcomes env req,
    fun e => ⟨rfl, rfl⟩⟩
  intro r rs lineRecs e h1 h2 h3
  have hmain := gqp_render_error env req r rs lineRecs e h1 h2 h3
  refine ⟨hmain, ?_⟩
  rw [hmain]
  intro c hc
  simp only [List.mem_cons, List.not_mem_nil, or_false] at hc
  rcases hc with rfl | rfl <;> rfl

/-- Witness for C5: concrete environments whose renderer raises and whose
record creation raises. -/
theorem c5_exception_boundary_maps_to_500_witness :
    renderFailEnv.queryRes (opp_query sampleReq.opportunityId) = .ok [⟨sampleOpp⟩]
    ∧ renderFailEnv.queryRes (quote_lines_query sampleReq.opportunityId) = .ok []
    ∧ generate_quote_pdf renderFailEnv sampleReq
        = (.httpError 500 (internalErrorBody ⟨"OSError", "renderer crashed"⟩),
           [.query (opp_query sampleReq.opportunityId),
            .query (quote_lines_query sampleReq.opportunityId)])
    ∧ generate_quote_pdf createFailEnv sampleReq
        = (.httpError 500
             (internalErrorBody ⟨"UnexpectedRestApiResponsePayload", "create failed"⟩),
           [.query (opp_query sampleReq.opportunityId),
            .query (quote_lines_query sampleReq.opportunityId),
            .create "ContentVersion"
              (file_data sampleReq.opportunityId sampleOpp createFailEnv [37, 80])])
    ∧ (internalErrorBody ⟨"OSError", "renderer crashed"⟩).errorCode = "INTERNAL_ERROR" := by
  refine ⟨rfl, rfl, ?_, ?_, rfl⟩
  · exact ((c5_exception_boundary_maps_to_500 renderFailEnv sampleReq).2.2.1
      ⟨sampleOpp⟩ [] [] ⟨"OSError", "renderer crashed"⟩ rfl rfl rfl).1
  · exact (c5_exception_boundary_maps_to_500 createFailEnv sampleReq).2.2.2.1
      ⟨sampleOpp⟩ [] [] [37, 80] ⟨"UnexpectedRestApiResponsePayload", "create failed"⟩
      rfl rfl rfl rfl

/-! ## C8 (corrected): filenames collide within one clock second -/

/-- C8 counterexample.  Two sequential successful generations for the same
Opportunity whose request clocks read the same second (the timestamp
format has second granularity) submit the very same client-visible
filename: the timestamp does not guarantee uniqueness. -/
theorem c8_counterexample_same_second_filenames_collide :
    isSuccess (handle_request okEnvA sampleReq).1 = true
    ∧ isSuccess (handle_request okEnvB sampleReq).1 = true
    ∧ clientFilename (handle_request okEnvA sampleReq).2
        = some (.str "Quote_006A1B2C3D4E5F6G7H_20260101_120000.pdf")
    ∧ clientFilename (handle_request okEnvA sampleReq).2
        = clientFilename (handle_request okEnvB sampleReq).2 :=
  ⟨rfl, rfl, rfl, rfl⟩

/-- C8 as amended.  The client-visible filenames of two generations for
the same Opportunity are distinct exactly when their embedded request
timestamps differ (same-second generations collide), and every successful
generation issues exactly two create calls — a fresh file/link record pair
with no deduplication. -/
theorem c8_filenames_distinct_iff_timestamps_differ_and_two_creates :
    (∀ (oppId ts1 ts2 : String), ts1 ≠ ts2 →
       pathOnClient oppId ts1 ≠ pathOnClient oppId ts2)
    ∧ (∀ (env : Env) (req : GenerateQuotePdfRequest),
        isSuccess (generate_quote_pdf env req).1 = true →
        ((generate_quote_pdf env req).2.filter isCreate).length = 2) := by
  constructor
  · intro oppId ts1 ts2 hne heq
    apply hne
    have h2 := congrArg String.data heq
    simp only [pathOnClient, String.data_append, List.append_assoc] at h2
    exact String.ext (List.append_cancel_right
      (List.append_cancel_left (List.append_cancel_left (List.append_cancel_left h2))))
  · intro env req h
    cases hq1 : env.queryRes (opp_query req.opportunityId) with
    | error e => simp [generate_quote_pdf, hq1, isSuccess] at h
    | ok recs =>
      cases recs with
      | nil => simp [generate_quote_pdf, hq1, isSuccess] at h
      | cons r rest =>
        cases hq2 : env.queryRes (quote_lines_query req.opportunityId) with
        | error e => simp [generate_quote_pdf, hq1, hq2, isSuccess] at h
        | ok lineRecs =>
          cases hr : env.renderRes (create_pdf_from_opportunity_data r.fields
              (lineRecs.map QueryRecord.fields) req.includeTerms req.templateName
              req.customHeader req.customFooter env.nowDate) with
          | error e => simp [generate_quote_pdf, hq1, hq2, hr, isSuccess] at h
          | ok pdf_bytes =>
            cases hc1 : env.createRes "ContentVersion"
                (file_data req.opportunityId r.fields env pdf_bytes) with
            | error e => simp [generate_quote_pdf, hq1, hq2, hr, hc1, isSuccess] at h
            | ok cvid =>
              cases hq3 : env.queryRes (cd_query cvid) with
              | error e => simp [generate_quote_pdf, hq1, hq2, hr, hc1, hq3, isSuccess] at h
              | ok recs3 =>
                cases recs3 with
                | nil => simp [generate_quote_pdf, hq1, hq2, hr, hc1, hq3, isSuccess] at h
                | cons r3 rest3 =>
                  cases hlk : lookupField r3.fields "ContentDocumentId" with
                  | none =>
                    simp [generate_quote_pdf, hq1, hq2, hr, hc1, hq3, hlk, isSuccess] at h
                  | some cdid =>
                    cases hc2 : env.createRes "ContentDocumentLink"
                        (cdl_data req.opportunityId cdid) with
                    | error e =>
                      simp [generate_quote_pdf, hq1, hq2, hr, hc1, hq3, hlk, hc2, isSuccess] at h
                    | ok lid =>
                      simp [generate_quote_pdf, hq1, hq2, hr, hc1, hq3, hlk, hc2,
                        isCreate, List.filter]

/-- Witness for C8 as amended: distinct timestamps give distinct
filenames, and a concrete successful run issues exactly two creates. -/
theorem c8_filenames_distinct_witness :
    (("20260101_120000" : String) ≠ "20260101_120001")
    ∧ pathOnClient "006A1B2C3D4E5F6G7H" "20260101_120000"
        ≠ pathOnClient "006A1B2C3D4E5F6G7H" "20260101_120001"
    ∧ isSuccess (generate_quote_pdf okEnvA sampleReq).1 = true
    ∧ ((generate_quote_pdf okEnvA sampleReq).2.filter isCreate).length = 2 := by
  have hs : isSuccess (generate_quote_pdf okEnvA sampleReq).1 = true := rfl
  exact ⟨by decide,
    c8_filenames_distinct_iff_timestamps_differ_and_two_creates.1 _ _ _ (by decide),
    hs,
    c8_filenames_distinct_iff_timestamps_differ_and_two_creates.2 okEnvA sampleReq hs⟩

end QuotePdf
